import Mathlib

/-!
Verification development for the ETF holdings tracker
(`tracker.py` and `query_helper.py`).

The embedding models:
* the feed table handed to `fetch_etf_data` (a pandas DataFrame read from
  CSV) as a list of rows over a list of column names, with cells that are
  numeric, textual, or null;
* a stored holdings row (`holdings` table) as a `Record` with the canonical
  columns; SQL `NULL` is `Option.none`, SQL `REAL` is modelled by `ℚ`;
* the SQLite store as a `List Record`, with the multi-row `INSERT` issued by
  `DataFrame.to_sql(..., method='multi')` modelled row by row: SQLite's
  `UNIQUE(etf_code, date_of_pull, ticker, name)` constraint aborts the whole
  statement on the first conflicting row, and pandas rolls the transaction
  back, so a failed batch leaves the store unchanged.  Per SQLite semantics,
  two rows never conflict on the unique index when either row's `ticker` or
  `name` is `NULL` (`NULL` values are pairwise distinct in unique indexes).
-/

namespace ETF

/-- Cell of the raw feed table.  `num` holds a value that
`pd.to_numeric(..., errors="coerce")` accepts, `str` holds text that fails
numeric coercion (coerced to `NaN`), `null` is a missing value (`NaN`). -/
inductive Cell where
  | num (q : ℚ)
  | str (s : String)
  | null
deriving DecidableEq

/-- Numeric coercion `pd.to_numeric(cell, errors="coerce")`: `none` stands
for the `NaN` produced when coercion fails or the cell is missing. -/
def toNumeric : Cell → Option ℚ
  | .num q => some q
  | .str _ => none
  | .null => none

/-- Textual view of a cell, used for the descriptive columns (ticker, name,
location, sector, maturity); a null cell stays null. -/
def toText : Cell → Option String
  | .num q => some (toString q)
  | .str s => some s
  | .null => none

/-- Row of the raw feed table: an association list from source column names
to cells.  A column listed in the table but absent from the row reads as a
null cell. -/
def Row := List (String × Cell)

/-- Cell of a row under a source column name (missing entry reads null). -/
def getCell (r : Row) (c : String) : Cell :=
  (List.lookup c r).getD Cell.null

/-- Raw feed table fetched by `pd.read_csv` in `fetch_etf_data`
(tracker.py line 110): column names plus rows. -/
structure Table where
  cols : List String
  rows : List Row

/-- Stored holdings row (the `holdings` table of tracker.py lines 54-73).
`etf_code` and `date_of_pull` are `NOT NULL`; every other stored column is
nullable.  The autoincrement id and `created_at` are system-assigned and
play no role in any claim. -/
structure Record where
  etf_code : String
  date_of_pull : String
  ticker : Option String
  name : Option String
  location : Option String
  sector : Option String
  maturity : Option String
  weight_pct : Option ℚ
  ytm_pct : Option ℚ
  market_value : Option ℚ
  notional_value : Option ℚ
  shares : Option ℚ
  price : Option ℚ
deriving DecidableEq

/-- Builds the stored record for one surviving feed row: numeric columns are
coerced (tracker.py lines 116-127), descriptive columns renamed (lines
130-138), `etf_code` and `date_of_pull` stamped (lines 141-142), and the
projection onto the canonical columns (lines 145-153) makes a canonical
column absent from the source read as null. -/
def mkRecord (etf_code today : String) (cols : List String) (r : Row) : Record where
  etf_code := etf_code
  date_of_pull := today
  ticker := if "Ticker" ∈ cols then toText (getCell r "Ticker") else none
  name := if "Name" ∈ cols then toText (getCell r "Name") else none
  location := if "Location" ∈ cols then toText (getCell r "Location") else none
  sector := if "Sector" ∈ cols then toText (getCell r "Sector") else none
  maturity := if "Maturity" ∈ cols then toText (getCell r "Maturity") else none
  weight_pct := if "Weight (%)" ∈ cols then toNumeric (getCell r "Weight (%)") else none
  ytm_pct := if "YTM (%)" ∈ cols then toNumeric (getCell r "YTM (%)") else none
  market_value := if "Market Value" ∈ cols then toNumeric (getCell r "Market Value") else none
  notional_value := if "Notional Value" ∈ cols then toNumeric (getCell r "Notional Value") else none
  shares := if "Shares" ∈ cols then toNumeric (getCell r "Shares") else none
  price := if "Price" ∈ cols then toNumeric (getCell r "Price") else none

/-- Number of canonical columns kept by the projection of tracker.py lines
145-153: `len(df.columns)` at line 156.  `etf_code` and `date_of_pull` are
always added; each other canonical column is kept iff its source column was
present. -/
def keptColumnCount (cols : List String) : Nat :=
  2 + (if "Ticker" ∈ cols then 1 else 0) + (if "Name" ∈ cols then 1 else 0)
    + (if "Location" ∈ cols then 1 else 0) + (if "Sector" ∈ cols then 1 else 0)
    + (if "Maturity" ∈ cols then 1 else 0) + (if "Weight (%)" ∈ cols then 1 else 0)
    + (if "YTM (%)" ∈ cols then 1 else 0) + (if "Market Value" ∈ cols then 1 else 0)
    + (if "Notional Value" ∈ cols then 1 else 0) + (if "Shares" ∈ cols then 1 else 0)
    + (if "Price" ∈ cols then 1 else 0)

/-- Number of non-null values among the non-key canonical fields of a
record.  Since an absent source column yields a null field, this matches
pandas' per-row non-NA count over the kept non-key columns. -/
def nonKeySomeCount (rec : Record) : Nat :=
  (if rec.ticker.isSome then 1 else 0) + (if rec.name.isSome then 1 else 0)
    + (if rec.location.isSome then 1 else 0) + (if rec.sector.isSome then 1 else 0)
    + (if rec.maturity.isSome then 1 else 0) + (if rec.weight_pct.isSome then 1 else 0)
    + (if rec.ytm_pct.isSome then 1 else 0) + (if rec.market_value.isSome then 1 else 0)
    + (if rec.notional_value.isSome then 1 else 0) + (if rec.shares.isSome then 1 else 0)
    + (if rec.price.isSome then 1 else 0)

/-- Per-row non-NA count used by `df.dropna(thresh=len(df.columns) * 0.5)`
(tracker.py line 156): the always-non-null key columns `etf_code` and
`date_of_pull` are part of the count. -/
def nonNullCount (rec : Record) : Nat :=
  2 + nonKeySomeCount rec

/-- Normalizer `fetch_etf_data` (tracker.py lines 104-163), for one fetched
table.  Line 113 reads
`df = df[pd.to_numeric(df.get("Weight (%)", 0), errors="coerce") != 0].head(1000)`:

* when the table has no `"Weight (%)"` column, `df.get` returns the scalar
  default `0`, the mask collapses to the scalar `False`, and `df[False]`
  raises `KeyError`; the `except` at line 161 catches it and the function
  returns the no-data sentinel `None` — modelled by the `else` branch;
* when the column is present, a row is kept iff its coerced weight differs
  from `0`; a coercion failure gives `NaN`, and `NaN != 0` is `True`, so
  rows with a non-numeric weight are kept.  The first 1000 qualifying rows
  survive (`.head(1000)`).

The surviving rows are turned into records and line 156 drops a row whose
non-NA count is below `len(df.columns) * 0.5`, i.e. keeps a row iff
`2 * nonNullCount ≥ keptColumnCount`. -/
def fetch_etf_data (etf_code today : String) (t : Table) : Option (List Record) :=
  if "Weight (%)" ∈ t.cols then
    let kept := (t.rows.filter
      (fun r => decide (toNumeric (getCell r "Weight (%)") ≠ some 0))).take 1000
    let recs := kept.map (mkRecord etf_code today t.cols)
    some (recs.filter (fun rec => decide (keptColumnCount t.cols ≤ 2 * nonNullCount rec)))
  else
    none

/-- Conflict on one nullable component of the unique index: per SQLite,
`NULL` values in a unique index are pairwise distinct, so two rows agree on
the component only when both sides are non-null and equal. -/
def sameKeyPart : Option String → Option String → Bool
  | some a, some b => a == b
  | _, _ => false

/-- Violation of `UNIQUE(etf_code, date_of_pull, ticker, name)` (tracker.py
line 71) between an incoming row and a stored row. -/
def conflicts (r s : Record) : Bool :=
  r.etf_code == s.etf_code && r.date_of_pull == s.date_of_pull
    && sameKeyPart r.ticker s.ticker && sameKeyPart r.name s.name

/-- Row-by-row effect of the single multi-row `INSERT` issued by
`df.to_sql('holdings', conn, if_exists='append', index=False, method='multi')`
(tracker.py line 171): rows are checked against the store grown so far; the
first uniqueness violation aborts the statement (`sqlite3.IntegrityError`)
and, together with pandas' transaction rollback, leaves the store as it was
— modelled by returning `none`. -/
def insertRows : List Record → List Record → Option (List Record)
  | db, [] => some db
  | db, r :: rs =>
    if db.any (fun s => conflicts r s) then none else insertRows (db ++ [r]) rs

/-- Outcome of one `save_to_database` call, distinguishing the three exit
paths of tracker.py lines 165-184. -/
inductive SaveOutcome where
  | ok
  | integrityError
  | otherError
deriving DecidableEq, BEq

/-- Environment of one tracker run: the registered codes (`ETF_CONFIG`
keys), the result of fetching each code (already normalized; `none` is the
no-data sentinel of `fetch_etf_data`), and an oracle saying whether the
store raises a non-uniqueness exception while saving that code (disk or
connection failure — the `except Exception` branch at tracker.py line 182). -/
structure Env where
  known : List String
  fetch : String → Option (List Record)
  saveFails : String → Bool

/-- Store-level effect and exit path of `save_to_database` (tracker.py lines
165-184): an externally-raised exception or a uniqueness violation leaves
the store unchanged (no commit, transaction rolled back); otherwise the
whole batch is appended. -/
def save_outcome (env : Env) (etf_code : String) (df db : List Record) :
    SaveOutcome × List Record :=
  if env.saveFails etf_code then (.otherError, db)
  else
    match insertRows db df with
    | some db2 => (.ok, db2)
    | none => (.integrityError, db)

/-- Return value and resulting store of `save_to_database(df, etf_code)`:
`True` on the normal path, `False` from both `except` branches (tracker.py
lines 177, 181, 184). -/
def save_to_database (env : Env) (df : List Record) (etf_code : String)
    (db : List Record) : Bool × List Record :=
  let r := save_outcome env etf_code df db
  (r.1 == SaveOutcome.ok, r.2)

/-- Connection events of `save_to_database`: `sqlite3.connect` at line 168
opens the connection on every path; `conn.close()` at line 174 runs only on
the path where `to_sql` and `commit` did not raise — neither `except`
branch closes the connection. -/
inductive DbEvent where
  | openConn
  | closeConn
deriving DecidableEq

/-- Connection-event trace of one `save_to_database` call, by exit path. -/
def connEvents : SaveOutcome → List DbEvent
  | .ok => [.openConn, .closeConn]
  | .integrityError => [.openConn]
  | .otherError => [.openConn]

/-- Existence check `check_data_exists(etf_code, date_str)` (tracker.py
lines 85-98): `COUNT(*) > 0` over rows matching the pair. -/
def check_data_exists (etf_code date_str : String) (db : List Record) : Bool :=
  decide (0 < (db.filter
    (fun r => r.etf_code == etf_code && r.date_of_pull == date_str)).length)

/-- Run summary accumulated by `run_tracker` (tracker.py lines 210-214). -/
structure RunResults where
  success : List String
  failed : List String
  skipped : List String
deriving DecidableEq

/-- Body of the per-ETF loop of `run_tracker` (tracker.py lines 217-242):
unknown code → failed; already fetched today → skipped; fetch sentinel or
empty frame → failed; save returning `True` → success, returning `False`
→ skipped. -/
def run_step (env : Env) (today : String) (acc : RunResults × List Record)
    (etf_code : String) : RunResults × List Record :=
  let res := acc.1
  let db := acc.2
  if etf_code ∉ env.known then
    ({ res with failed := res.failed ++ [etf_code] }, db)
  else if check_data_exists etf_code today db then
    ({ res with skipped := res.skipped ++ [etf_code] }, db)
  else
    match env.fetch etf_code with
    | some df =>
      if 0 < df.length then
        let s := save_to_database env df etf_code db
        if s.1 then ({ res with success := res.success ++ [etf_code] }, s.2)
        else ({ res with skipped := res.skipped ++ [etf_code] }, s.2)
      else ({ res with failed := res.failed ++ [etf_code] }, db)
    | none => ({ res with failed := res.failed ++ [etf_code] }, db)

/-- Orchestrator `run_tracker(etf_codes)` (tracker.py lines 190-251) over an
initial store state, returning the run summary and the final store. -/
def run_tracker (env : Env) (today : String) (etf_codes : List String)
    (db : List Record) : RunResults × List Record :=
  etf_codes.foldl (run_step env today) (⟨[], [], []⟩, db)

/-- All codes recorded in a run summary, in the three lists. -/
def summaryCodes (res : RunResults) : List String :=
  res.success ++ res.failed ++ res.skipped

/-- Sort key of `ORDER BY weight_pct DESC` in SQLite: `NULL` sorts below
every numeric value, so a descending order puts null weights last. -/
def weightKey (r : Record) : WithBot ℚ :=
  match r.weight_pct with
  | some q => (q : WithBot ℚ)
  | none => ⊥

/-- Row order produced by `ORDER BY weight_pct DESC`. -/
def weightDesc (a b : Record) : Prop :=
  weightKey b ≤ weightKey a

instance : DecidableRel weightDesc :=
  fun a b => inferInstanceAs (Decidable (weightKey b ≤ weightKey a))

instance : IsTotal Record weightDesc :=
  ⟨fun a b => le_total (weightKey b) (weightKey a)⟩

instance : IsTrans Record weightDesc :=
  ⟨fun _ _ _ h1 h2 => le_trans h2 h1⟩

/-- Query of `get_holdings_by_date(etf_code, date_str)` (query_helper.py
lines 35-50): all rows of the pair, ordered by weight descending. -/
def get_holdings_by_date (etf_code date_str : String) (db : List Record) :
    List Record :=
  (db.filter (fun r => r.etf_code == etf_code && r.date_of_pull == date_str)).insertionSort
    weightDesc

/-- SQL `MAX` over a non-null text column: the largest value, `NULL`
(`none`) on an empty row set.  ISO `YYYY-MM-DD` dates compare
chronologically under SQLite's lexicographic text order. -/
def dateMax : List String → Option String
  | [] => none
  | d :: ds =>
    match dateMax ds with
    | none => some d
    | some m => some (max d m)

/-- Subquery `SELECT MAX(date_of_pull) FROM holdings WHERE etf_code = ...`
of `get_latest_holdings` (query_helper.py line 24). -/
def max_date (etf_code : String) (db : List Record) : Option String :=
  dateMax ((db.filter (fun r => r.etf_code == etf_code)).map Record.date_of_pull)

/-- Query of `get_latest_holdings(etf_code)` (query_helper.py lines 16-33):
rows of the ETF whose `date_of_pull` equals the subquery maximum, ordered by
weight descending.  When the subquery yields `NULL` the SQL equality matches
no row, which the `Option`-level equality reproduces. -/
def get_latest_holdings (etf_code : String) (db : List Record) : List Record :=
  (db.filter (fun r => r.etf_code == etf_code
      && decide (some r.date_of_pull = max_date etf_code db))).insertionSort
    weightDesc

/-- Characterization used to state C9 against the query: the record belongs
to the ETF and its pull date is at least every pull date stored for that
ETF (hence equals the maximum, which the record itself attains). -/
def isLatestFor (etf_code : String) (db : List Record) (r : Record) : Bool :=
  r.etf_code == etf_code
    && db.all (fun s => !(s.etf_code == etf_code) || decide (s.date_of_pull ≤ r.date_of_pull))

/-- Join-key comparison of `df1.merge(df2, on=['ticker', 'name'], ...)`
(query_helper.py lines 117-122).  pandas matches `NaN` join keys with each
other, so the comparison is plain equality of the nullable fields. -/
def keyEq (r s : Record) : Bool :=
  r.ticker == s.ticker && r.name == s.name

/-- One row of the outer merge: the old-side record (from `date1`'s
snapshot) and the new-side record (from `date2`'s), either possibly absent. -/
abbrev MergedRow := Option Record × Option Record

/-- Full outer join of the two snapshots on `(ticker, name)`
(query_helper.py lines 117-122): each left row pairs with every matching
right row, or with an absent right side when unmatched; unmatched right
rows follow with an absent left side. -/
def mergeOuter (df1 df2 : List Record) : List MergedRow :=
  (df1.flatMap (fun r =>
    let ms := df2.filter (fun s => keyEq r s)
    if ms.isEmpty then [(some r, none)] else ms.map (fun s => (some r, some s))))
  ++ (df2.filter (fun s => !(df1.any (fun r => keyEq r s)))).map
      (fun s => ((none : Option Record), some s))

/-- Weight on one side of a merged row: `NaN` (`none`) when the row is
absent from that side or its stored weight is null. -/
def sideWeight (o : Option Record) : Option ℚ :=
  o.bind Record.weight_pct

/-- Column `weight_change` (query_helper.py line 124):
`weight_pct_new.fillna(0) - weight_pct_old.fillna(0)`. -/
def weight_change (o n : Option Record) : ℚ :=
  (sideWeight n).getD 0 - (sideWeight o).getD 0

/-- Column `ytm_change` (query_helper.py line 125):
`ytm_pct_new - ytm_pct_old`, which is `NaN` (`none`) whenever either side
is absent or null. -/
def ytm_change (o n : Option Record) : Option ℚ :=
  match o.bind Record.ytm_pct, n.bind Record.ytm_pct with
  | some a, some b => some (b - a)
  | _, _ => none

/-- Predicate of the "New holdings" count (query_helper.py line 132):
`weight_pct_old` is `NaN`, i.e. the old side is absent or its weight null. -/
def isNewRow (p : MergedRow) : Bool :=
  (sideWeight p.1).isNone

/-- Predicate of the "Removed holdings" count (query_helper.py line 133). -/
def isRemovedRow (p : MergedRow) : Bool :=
  (sideWeight p.2).isNone

/-- Rows counted by `merged['weight_pct_old'].isna().sum()`. -/
def new_rows (m : List MergedRow) : List MergedRow :=
  m.filter isNewRow

/-- Rows counted by `merged['weight_pct_new'].isna().sum()`. -/
def removed_rows (m : List MergedRow) : List MergedRow :=
  m.filter isRemovedRow

/-- Reported "New holdings" count. -/
def new_count (m : List MergedRow) : Nat :=
  (new_rows m).length

/-- Reported "Removed holdings" count. -/
def removed_count (m : List MergedRow) : Nat :=
  (removed_rows m).length

/-- Sort order of query_helper.py lines 128-129: descending absolute
weight change. -/
def absWeightDesc (p q : MergedRow) : Prop :=
  |weight_change q.1 q.2| ≤ |weight_change p.1 p.2|

instance : DecidableRel absWeightDesc :=
  fun p q => inferInstanceAs (Decidable (|weight_change q.1 q.2| ≤ |weight_change p.1 p.2|))

/-- Query of `compare_dates(etf_code, date1, date2)` (query_helper.py lines
111-137): outer-merge the two snapshots on `(ticker, name)` and sort by
descending absolute weight change.  The returned column projection at line
136 drops no row and is omitted. -/
def compare_dates (etf_code date1 date2 : String) (db : List Record) :
    List MergedRow :=
  (mergeOuter (get_holdings_by_date etf_code date1 db)
    (get_holdings_by_date etf_code date2 db)).insertionSort absWeightDesc

/-- Record with both key fields present and every nullable field null. -/
def baseRec (e d : String) : Record :=
  ⟨e, d, none, none, none, none, none, none, none, none, none, none, none⟩

/-- Fully keyed holding used by concrete scenarios (null `ytm_pct`). -/
def recK : Record :=
  { baseRec "EMBI" "2025-01-01" with
      ticker := some "T1", name := some "N1", weight_pct := some 1 }

/-- Holding with a null `ticker`: its unique-index key never conflicts. -/
def recNull : Record :=
  { baseRec "EMBI" "2025-01-01" with name := some "N1", weight_pct := some 1 }

/-- Later-dated holding for the same instrument as `recK`. -/
def recB : Record :=
  { baseRec "EMBI" "2025-01-02" with
      ticker := some "T1", name := some "N1", weight_pct := some 2 }

/-- Holding present only at the later comparison date, weight 5. -/
def recD2 : Record :=
  { baseRec "EMBI" "2025-01-02" with
      ticker := some "T2", name := some "N2", weight_pct := some 5 }

/-- Environment whose store never raises outside uniqueness violations. -/
def envOK : Env :=
  ⟨["EMBI"], fun _ => none, fun _ => false⟩

/-- Environment whose store raises a non-uniqueness error on every save. -/
def envErr : Env :=
  ⟨["EMBI"], fun _ => some [recK], fun _ => true⟩

/-- Environment with a healthy fetch and store for `EMBI`. -/
def envFetch : Env :=
  ⟨["EMBI"], fun _ => some [recK], fun _ => false⟩

/-- Feed table with no `"Weight (%)"` column. -/
def tNoWeight : Table :=
  ⟨["Ticker"], [[("Ticker", Cell.str "T1")]]⟩

/-- All source columns recognized by the normalizer. -/
def allSourceCols : List String :=
  ["Ticker", "Name", "Location", "Sector", "Maturity", "Weight (%)", "YTM (%)",
    "Market Value", "Notional Value", "Shares", "Price"]

/-- Feed table with the descriptive columns and a numeric weight. -/
def tNumWeight : Table :=
  ⟨["Ticker", "Name", "Location", "Sector", "Maturity", "Weight (%)"],
    [[("Ticker", Cell.str "T1"), ("Name", Cell.str "N1"), ("Location", Cell.str "L1"),
      ("Sector", Cell.str "S1"), ("Maturity", Cell.str "M1"), ("Weight (%)", Cell.num 2)]]⟩

/-- Record produced by normalizing `tNumWeight`. -/
def recNumWeight : Record :=
  { baseRec "EMBI" "2025-01-01" with
      ticker := some "T1", name := some "N1", location := some "L1",
      sector := some "S1", maturity := some "M1", weight_pct := some 2 }

/-- Feed table whose single row has a non-numeric weight cell. -/
def tTextWeight : Table :=
  ⟨["Ticker", "Name", "Location", "Sector", "Maturity", "Weight (%)"],
    [[("Ticker", Cell.str "T1"), ("Name", Cell.str "N1"), ("Location", Cell.str "L1"),
      ("Sector", Cell.str "S1"), ("Maturity", Cell.str "M1"), ("Weight (%)", Cell.str "N/A")]]⟩

/-- Record produced by normalizing `tTextWeight`: null `weight_pct`. -/
def recTextWeight : Record :=
  { baseRec "EMBI" "2025-01-01" with
      ticker := some "T1", name := some "N1", location := some "L1",
      sector := some "S1", maturity := some "M1" }

/-- Full-column feed table whose single row fills five non-key fields. -/
def tFiveFields : Table :=
  ⟨allSourceCols,
    [[("Ticker", Cell.str "T1"), ("Name", Cell.str "N1"), ("Location", Cell.str "L1"),
      ("Weight (%)", Cell.num 1), ("YTM (%)", Cell.num 2)]]⟩

/-- Record produced by normalizing `tFiveFields`. -/
def recFiveFields : Record :=
  { baseRec "EMBI" "2025-01-01" with
      ticker := some "T1", name := some "N1", location := some "L1",
      weight_pct := some 1, ytm_pct := some 2 }

/-- Full-column feed table with a rich row and a ticker-and-weight-only row. -/
def tRichSparse : Table :=
  ⟨allSourceCols,
    [[("Ticker", Cell.str "T1"), ("Name", Cell.str "N1"), ("Location", Cell.str "L1"),
      ("Sector", Cell.str "S1"), ("Maturity", Cell.str "M1"),
      ("Weight (%)", Cell.num 1), ("YTM (%)", Cell.num 2)],
     [("Ticker", Cell.str "T2"), ("Weight (%)", Cell.num 1)]]⟩

/-- Record produced by normalizing the rich row of `tRichSparse`. -/
def recRich : Record :=
  { baseRec "EMBI" "2025-01-01" with
      ticker := some "T1", name := some "N1", location := some "L1",
      sector := some "S1", maturity := some "M1",
      weight_pct := some 1, ytm_pct := some 2 }

/-- C10: when the fetched feed table has no `"Weight (%)"` column, the
weight-filter step of `fetch_etf_data` fails (`df.get` yields the scalar
default, the mask collapses and the indexing raises), the failure is caught
at tracker.py line 161, and the no-data sentinel `None` is returned. -/
theorem c10_no_weight_column_returns_sentinel (etf_code today : String) (t : Table)
    (h : "Weight (%)" ∉ t.cols) :
    fetch_etf_data etf_code today t = none := by
  simp [fetch_etf_data, h]

/-- Witness for C10 at a concrete weightless table. -/
theorem c10_no_weight_column_returns_sentinel_witness :
    "Weight (%)" ∉ tNoWeight.cols ∧
      fetch_etf_data "EMBI" "2025-01-01" tNoWeight = none :=
  ⟨by decide, c10_no_weight_column_returns_sentinel "EMBI" "2025-01-01" tNoWeight (by decide)⟩

/-- C2 (amended): every record returned by the normalizer has a
`weight_pct` that is null or nonzero — rows whose source weight coerces to
numeric zero are excluded, while rows with a non-numeric source weight are
kept with a null `weight_pct` (coercion gives `NaN` and `NaN != 0` is
`True` at tracker.py line 113). -/
theorem c2_stored_weight_null_or_nonzero (etf_code today : String) (t : Table)
    (df : List Record) (h : fetch_etf_data etf_code today t = some df) :
    ∀ r ∈ df, r.weight_pct ≠ some 0 := by
  intro r hr
  by_cases hw : "Weight (%)" ∈ t.cols
  · simp only [fetch_etf_data, if_pos hw] at h
    obtain rfl := Option.some.inj h
    have hr2 := List.mem_of_mem_filter hr
    obtain ⟨row, hrow, rfl⟩ := List.mem_map.mp hr2
    have hrow2 : row ∈ t.rows.filter
        (fun r => decide (toNumeric (getCell r "Weight (%)") ≠ some 0)) :=
      List.take_subset _ _ hrow
    have hne : toNumeric (getCell row "Weight (%)") ≠ some 0 := by
      simpa using (List.mem_filter.mp hrow2).2
    simpa [mkRecord, if_pos hw] using hne
  · simp [fetch_etf_data, hw] at h

/-- Witness for C2 at a concrete table with a numeric weight. -/
theorem c2_stored_weight_null_or_nonzero_witness :
    fetch_etf_data "EMBI" "2025-01-01" tNumWeight = some [recNumWeight] ∧
      recNumWeight.weight_pct ≠ some 0 :=
  ⟨by decide,
    c2_stored_weight_null_or_nonzero "EMBI" "2025-01-01" tNumWeight [recNumWeight]
      (by decide) recNumWeight (by decide)⟩

/-- Counterexample for C2 as stated: a row whose source weight is
non-numeric (`"N/A"`) is not excluded by the normalizer — it survives with
a null `weight_pct` and reaches persistence. -/
theorem c2_counterexample_nonnumeric_weight_kept :
    fetch_etf_data "EMBI" "2025-01-01" tTextWeight = some [recTextWeight] ∧
      recTextWeight.weight_pct = none := by
  decide

/-- C8 (amended): the data-quality floor at tracker.py line 156 keeps a row
iff its non-NA count over the kept canonical columns — counting the
always-non-null key fields `etf_code` and `date_of_pull` — is at least half
the number of kept canonical columns. -/
theorem c8_kept_rows_meet_threshold (etf_code today : String) (t : Table)
    (df : List Record) (h : fetch_etf_data etf_code today t = some df) :
    ∀ r ∈ df, keptColumnCount t.cols ≤ 2 * nonNullCount r := by
  intro r hr
  by_cases hw : "Weight (%)" ∈ t.cols
  · simp only [fetch_etf_data, if_pos hw] at h
    obtain rfl := Option.some.inj h
    simpa using (List.mem_filter.mp hr).2
  · simp [fetch_etf_data, hw] at h

/-- Witness for C8: on a full-column table the rich row is kept and meets
the threshold, while the ticker-and-weight-only row has been dropped. -/
theorem c8_kept_rows_meet_threshold_witness :
    fetch_etf_data "EMBI" "2025-01-01" tRichSparse = some [recRich] ∧
      keptColumnCount tRichSparse.cols ≤ 2 * nonNullCount recRich :=
  ⟨by decide,
    c8_kept_rows_meet_threshold "EMBI" "2025-01-01" tRichSparse [recRich]
      (by decide) recRich (by decide)⟩

/-- Counterexample for C8 as stated: a full-column row with five non-null
non-key fields is kept by the code (its count including the two key fields
is `7`, and `14 ≥ 13`), although five is below half of the thirteen
available canonical columns, so the claim's non-key counting rule says it
should have been discarded. -/
theorem c8_counterexample_nonkey_counting :
    fetch_etf_data "EMBI" "2025-01-01" tFiveFields = some [recFiveFields] ∧
      2 * nonKeySomeCount recFiveFields < keptColumnCount tFiveFields.cols := by
  decide

/-- Successful batch inserts append the whole batch, in order. -/
theorem insertRows_eq_append :
    ∀ (batch db db2 : List Record), insertRows db batch = some db2 → db2 = db ++ batch
  | [], db, db2, h => by
    simpa [insertRows] using (Option.some.inj h).symm
  | r :: rs, db, db2, h => by
    rw [insertRows] at h
    by_cases hc : db.any (fun s => conflicts r s)
    · simp [hc] at h
    · rw [if_neg hc] at h
      have := insertRows_eq_append rs (db ++ [r]) db2 h
      simpa [List.append_assoc] using this

/-- Record whose `ticker` and `name` are both non-null conflicts with
itself on the unique index. -/
theorem conflicts_self (r : Record) (ht : r.ticker.isSome) (hn : r.name.isSome) :
    conflicts r r = true := by
  obtain ⟨a, ha⟩ := Option.isSome_iff_exists.mp ht
  obtain ⟨b, hb⟩ := Option.isSome_iff_exists.mp hn
  simp [conflicts, sameKeyPart, ha, hb]

/-- C1 (amended): re-appending an identical, nonempty batch whose rows all
carry non-null `ticker` and `name` is rejected (returns `False`) and leaves
the store — in particular the record count — unchanged.  The restriction to
non-null key fields is forced by SQLite treating `NULL` values in a unique
index as pairwise distinct. -/
theorem c1_reappend_identical_batch_rejected (env : Env) (etf_code : String)
    (batch db db2 : List Record)
    (hsf : env.saveFails etf_code = false)
    (hne : batch ≠ [])
    (hkeys : ∀ r ∈ batch, r.ticker.isSome ∧ r.name.isSome)
    (h1 : save_to_database env batch etf_code db = (true, db2)) :
    save_to_database env batch etf_code db2 = (false, db2) := by
  rw [save_to_database, save_outcome, hsf] at h1 ⊢
  simp only [Bool.false_eq_true, if_false] at h1 ⊢
  rcases hi : insertRows db batch with _ | db3
  · rw [hi] at h1
    simp only [Prod.mk.injEq] at h1
    exact absurd h1.1 (by decide)
  · rw [hi] at h1
    simp only [Prod.mk.injEq] at h1
    obtain ⟨-, rfl⟩ := h1
    have happ := insertRows_eq_append batch db db3 hi
    obtain ⟨r, rs, rfl⟩ := List.exists_cons_of_ne_nil hne
    have hmem : r ∈ db3 := by
      rw [happ]
      exact List.mem_append_right db (List.mem_cons_self r rs)
    have hany : db3.any (fun s => conflicts r s) = true :=
      List.any_eq_true.mpr
        ⟨r, hmem, conflicts_self r (hkeys r (List.mem_cons_self r rs)).1
          (hkeys r (List.mem_cons_self r rs)).2⟩
    rw [insertRows, if_pos hany]
    rfl

/-- Witness for C1 at a concrete keyed batch appended twice. -/
theorem c1_reappend_identical_batch_rejected_witness :
    envOK.saveFails "EMBI" = false ∧ [recK] ≠ [] ∧
      (∀ r ∈ [recK], r.ticker.isSome ∧ r.name.isSome) ∧
      save_to_database envOK [recK] "EMBI" [] = (true, [recK]) ∧
      save_to_database envOK [recK] "EMBI" [recK] = (false, [recK]) :=
  ⟨rfl, by decide, by decide, by decide,
    c1_reappend_identical_batch_rejected envOK "EMBI" [recK] [] [recK]
      rfl (by decide) (by decide) (by decide)⟩

/-- Counterexample for C1 as stated: a batch whose single row has a null
`ticker` never collides on `UNIQUE(etf_code, date_of_pull, ticker, name)`,
so re-appending the identical batch is accepted (returns `True`) and the
record count grows from one to two. -/
theorem c1_counterexample_null_key_reappend_accepted :
    save_to_database envOK [recNull] "EMBI" [] = (true, [recNull]) ∧
      save_to_database envOK [recNull] "EMBI" [recNull] = (true, [recNull, recNull]) := by
  decide

/-- C5 (amended): the store connection opened by `save_to_database` is
closed only on the success path; on the uniqueness-violation path and on
any other store failure the `except` branches return without closing it. -/
theorem c5_connection_closed_only_on_success (env : Env) (etf_code : String)
    (df db : List Record) :
    DbEvent.openConn ∈ connEvents (save_outcome env etf_code df db).1 ∧
      (DbEvent.closeConn ∈ connEvents (save_outcome env etf_code df db).1 ↔
        (save_outcome env etf_code df db).1 = SaveOutcome.ok) := by
  rcases h : (save_outcome env etf_code df db).1 <;> simp [connEvents, h]

/-- Counterexample for C5 as stated: on a duplicate-batch save the
operation ends in a uniqueness violation and its connection trace opens
the connection but never closes it. -/
theorem c5_counterexample_no_close_on_error :
    (save_outcome envOK "EMBI" [recK] [recK]).1 = SaveOutcome.integrityError ∧
      connEvents (save_outcome envOK "EMBI" [recK] [recK]).1 = [DbEvent.openConn] ∧
      DbEvent.closeConn ∉ connEvents (save_outcome envOK "EMBI" [recK] [recK]).1 := by
  decide

/-- Each loop iteration of `run_tracker` records the current code in
exactly one of the three summary lists. -/
theorem run_step_cases (env : Env) (today : String) (acc : RunResults × List Record)
    (c : String) :
    (run_step env today acc c).1 = { acc.1 with success := acc.1.success ++ [c] } ∨
    (run_step env today acc c).1 = { acc.1 with failed := acc.1.failed ++ [c] } ∨
    (run_step env today acc c).1 = { acc.1 with skipped := acc.1.skipped ++ [c] } := by
  rw [run_step]
  dsimp only
  split
  · exact Or.inr (Or.inl rfl)
  · split
    · exact Or.inr (Or.inr rfl)
    · split
      · split
        · split
          · exact Or.inl rfl
          · exact Or.inr (Or.inr rfl)
        · exact Or.inr (Or.inl rfl)
      · exact Or.inr (Or.inl rfl)

/-- One loop iteration appends the current code to the combined summary, up
to reordering across the three lists. -/
theorem run_step_summary_perm (env : Env) (today : String)
    (acc : RunResults × List Record) (c : String) :
    List.Perm (summaryCodes (run_step env today acc c).1) (summaryCodes acc.1 ++ [c]) := by
  rcases run_step_cases env today acc c with h | h | h <;> rw [h] <;>
    simp only [summaryCodes]
  · have h1 : (acc.1.success ++ [c]) ++ acc.1.failed ++ acc.1.skipped
        = acc.1.success ++ ([c] ++ (acc.1.failed ++ acc.1.skipped)) := by
      simp [List.append_assoc]
    have h2 : acc.1.success ++ acc.1.failed ++ acc.1.skipped ++ [c]
        = acc.1.success ++ ((acc.1.failed ++ acc.1.skipped) ++ [c]) := by
      simp [List.append_assoc]
    rw [h1, h2]
    exact List.Perm.append_left _ List.perm_append_comm
  · have h1 : acc.1.success ++ (acc.1.failed ++ [c]) ++ acc.1.skipped
        = acc.1.success ++ (acc.1.failed ++ ([c] ++ acc.1.skipped)) := by
      simp [List.append_assoc]
    have h2 : acc.1.success ++ acc.1.failed ++ acc.1.skipped ++ [c]
        = acc.1.success ++ (acc.1.failed ++ (acc.1.skipped ++ [c])) := by
      simp [List.append_assoc]
    rw [h1, h2]
    exact List.Perm.append_left _ (List.Perm.append_left _ List.perm_append_comm)
  · have h1 : acc.1.success ++ acc.1.failed ++ (acc.1.skipped ++ [c])
        = acc.1.success ++ acc.1.failed ++ acc.1.skipped ++ [c] := by
      simp [List.append_assoc]
    rw [h1]

/-- Folding the loop body over a list of codes appends those codes to the
combined summary, up to reordering across the three lists. -/
theorem foldl_run_step_summary (env : Env) (today : String) :
    ∀ (codes : List String) (acc : RunResults × List Record),
      List.Perm (summaryCodes (codes.foldl (run_step env today) acc).1)
        (summaryCodes acc.1 ++ codes)
  | [], acc => by simp
  | c :: cs, acc => by
    have h1 := foldl_run_step_summary env today cs (run_step env today acc c)
    have h2 := (run_step_summary_perm env today acc c).append_right cs
    have h3 : (summaryCodes acc.1 ++ [c]) ++ cs = summaryCodes acc.1 ++ (c :: cs) := by
      simp
    rw [List.foldl_cons, ← h3]
    exact h1.trans h2

/-- The combined run summary is a permutation of the processed codes. -/
theorem run_tracker_summary_perm (env : Env) (today : String) (codes : List String)
    (db : List Record) :
    List.Perm (summaryCodes (run_tracker env today codes db).1) codes := by
  have h := foldl_run_step_summary env today codes (⟨[], [], []⟩, db)
  simpa [run_tracker, summaryCodes] using h

/-- Folding the loop body only ever extends the skipped list. -/
theorem foldl_run_step_skipped (env : Env) (today : String) :
    ∀ (codes : List String) (acc : RunResults × List Record),
      ∃ t, (codes.foldl (run_step env today) acc).1.skipped = acc.1.skipped ++ t
  | [], acc => ⟨[], by simp⟩
  | c :: cs, acc => by
    obtain ⟨t, ht⟩ := foldl_run_step_skipped env today cs (run_step env today acc c)
    rcases run_step_cases env today acc c with h | h | h
    · exact ⟨t, by rw [List.foldl_cons, ht, h]⟩
    · exact ⟨t, by rw [List.foldl_cons, ht, h]⟩
    · exact ⟨c :: t, by rw [List.foldl_cons, ht, h]; simp⟩

/-- Folding the loop body extends the failed list only with processed
codes. -/
theorem foldl_run_step_failed (env : Env) (today : String) :
    ∀ (codes : List String) (acc : RunResults × List Record),
      ∃ t, t ⊆ codes ∧
        (codes.foldl (run_step env today) acc).1.failed = acc.1.failed ++ t
  | [], acc => ⟨[], by simp⟩
  | c :: cs, acc => by
    obtain ⟨t, ht, he⟩ := foldl_run_step_failed env today cs (run_step env today acc c)
    have hsub : t ⊆ c :: cs := fun x hx => List.mem_cons_of_mem _ (ht hx)
    rcases run_step_cases env today acc c with h | h | h
    · exact ⟨t, hsub, by rw [List.foldl_cons, he, h]⟩
    · refine ⟨c :: t, List.cons_subset.mpr ⟨List.mem_cons_self c cs, hsub⟩, ?_⟩
      rw [List.foldl_cons, he, h]
      simp
    · exact ⟨t, hsub, by rw [List.foldl_cons, he, h]⟩

/-- C3 (amended): when persistence fails for an ETF with a store error
other than a uniqueness violation, `run_tracker` records that ETF in the
skipped list — not the failed list — because `save_to_database` returns
`False` from every `except` branch and the loop maps `False` to skipped;
processing then continues with the remaining ETFs from the same store
state. -/
theorem c3_save_error_recorded_as_skipped (env : Env) (today etf_code : String)
    (rest : List String) (db df : List Record)
    (hk : etf_code ∈ env.known)
    (hx : check_data_exists etf_code today db = false)
    (hf : env.fetch etf_code = some df)
    (hlen : 0 < df.length)
    (herr : env.saveFails etf_code = true)
    (hrest : etf_code ∉ rest) :
    run_tracker env today (etf_code :: rest) db =
        rest.foldl (run_step env today) (⟨[], [], [etf_code]⟩, db) ∧
      etf_code ∈ (run_tracker env today (etf_code :: rest) db).1.skipped ∧
      etf_code ∉ (run_tracker env today (etf_code :: rest) db).1.failed := by
  have hstep : run_step env today (⟨[], [], []⟩, db) etf_code = (⟨[], [], [etf_code]⟩, db) := by
    rw [run_step]
    simp only [hk, hx, hf, hlen, save_to_database, save_outcome, herr]
    simp [hk]
    rfl
  have hrun : run_tracker env today (etf_code :: rest) db =
      rest.foldl (run_step env today) (⟨[], [], [etf_code]⟩, db) := by
    rw [run_tracker, List.foldl_cons, hstep]
  refine ⟨hrun, ?_, ?_⟩
  · obtain ⟨t, ht⟩ := foldl_run_step_skipped env today rest (⟨[], [], [etf_code]⟩, db)
    rw [hrun, ht]
    exact List.mem_append_left t (List.mem_singleton_self etf_code)
  · obtain ⟨t, hts, ht⟩ := foldl_run_step_failed env today rest (⟨[], [], [etf_code]⟩, db)
    rw [hrun, ht]
    intro hmem
    exact hrest (hts (by simpa using hmem))

/-- Witness for C3 at a concrete run whose only save raises a
non-uniqueness store error. -/
theorem c3_save_error_recorded_as_skipped_witness :
    "EMBI" ∈ envErr.known ∧ check_data_exists "EMBI" "2025-01-01" [] = false ∧
      envErr.fetch "EMBI" = some [recK] ∧ 0 < [recK].length ∧
      envErr.saveFails "EMBI" = true ∧
      "EMBI" ∈ (run_tracker envErr "2025-01-01" ["EMBI"] []).1.skipped ∧
      "EMBI" ∉ (run_tracker envErr "2025-01-01" ["EMBI"] []).1.failed :=
  ⟨by decide, by decide, rfl, by decide, rfl,
    (c3_save_error_recorded_as_skipped envErr "2025-01-01" "EMBI" [] [] [recK]
        (by decide) (by decide) rfl (by decide) rfl (by decide)).2.1,
    (c3_save_error_recorded_as_skipped envErr "2025-01-01" "EMBI" [] [] [recK]
        (by decide) (by decide) rfl (by decide) rfl (by decide)).2.2⟩

/-- Counterexample for C3 as stated: with a store that raises a
non-uniqueness error while saving `EMBI`, the run summary places `EMBI` in
the skipped list and leaves the failed list empty, contrary to the claimed
"failed" classification. -/
theorem c3_counterexample_error_lands_in_skipped :
    (run_tracker envErr "2025-01-01" ["EMBI"] []).1.skipped = ["EMBI"] ∧
      (run_tracker envErr "2025-01-01" ["EMBI"] []).1.failed = [] := by
  decide

/-- C4 (amended): when the input ETF codes are pairwise distinct, the three
summary lists of a run are pairwise disjoint.  The restriction is forced by
duplicated input codes: the same code can then be recorded once per
occurrence, in different lists. -/
theorem c4_summary_lists_disjoint_of_nodup (env : Env) (today : String)
    (codes : List String) (db : List Record) (h : codes.Nodup) :
    (run_tracker env today codes db).1.success.Disjoint
        (run_tracker env today codes db).1.failed ∧
      (run_tracker env today codes db).1.success.Disjoint
        (run_tracker env today codes db).1.skipped ∧
      (run_tracker env today codes db).1.failed.Disjoint
        (run_tracker env today codes db).1.skipped := by
  have hp := run_tracker_summary_perm env today codes db
  have hn : (summaryCodes (run_tracker env today codes db).1).Nodup :=
    hp.nodup_iff.mpr h
  rw [summaryCodes, List.nodup_append, List.nodup_append] at hn
  obtain ⟨⟨-, -, hsf⟩, -, hsfk⟩ := hn
  rw [List.disjoint_append_left] at hsfk
  exact ⟨hsf, hsfk.1, hsfk.2⟩

/-- Witness for C4 at a concrete duplicate-free run: one succeeding code
and one unknown code. -/
theorem c4_summary_lists_disjoint_of_nodup_witness :
    (["EMBI", "ZZZ"] : List String).Nodup ∧
      ((run_tracker envFetch "2025-01-01" ["EMBI", "ZZZ"] []).1.success.Disjoint
          (run_tracker envFetch "2025-01-01" ["EMBI", "ZZZ"] []).1.failed ∧
        (run_tracker envFetch "2025-01-01" ["EMBI", "ZZZ"] []).1.success.Disjoint
          (run_tracker envFetch "2025-01-01" ["EMBI", "ZZZ"] []).1.skipped ∧
        (run_tracker envFetch "2025-01-01" ["EMBI", "ZZZ"] []).1.failed.Disjoint
          (run_tracker envFetch "2025-01-01" ["EMBI", "ZZZ"] []).1.skipped) :=
  ⟨by decide,
    c4_summary_lists_disjoint_of_nodup envFetch "2025-01-01" ["EMBI", "ZZZ"] [] (by decide)⟩

/-- Counterexample for C4 as stated: listing the same code twice makes the
first occurrence succeed and the second occurrence hit the same-day
existence check, so `EMBI` appears in both the succeeded and the skipped
list. -/
theorem c4_counterexample_duplicate_code_in_two_lists :
    "EMBI" ∈ (run_tracker envFetch "2025-01-01" ["EMBI", "EMBI"] []).1.success ∧
      "EMBI" ∈ (run_tracker envFetch "2025-01-01" ["EMBI", "EMBI"] []).1.skipped := by
  decide

/-- Equality tests on nullable join keys are symmetric. -/
theorem optBeq_comm (a b : Option String) : (a == b) = (b == a) := by
  rw [Bool.eq_iff_iff]
  constructor <;> intro h <;> exact beq_of_eq (eq_of_beq h).symm

/-- Join-key comparison is symmetric. -/
theorem keyEq_comm (r s : Record) : keyEq r s = keyEq s r := by
  unfold keyEq
  rw [optBeq_comm r.ticker s.ticker, optBeq_comm r.name s.name]

/-- Every record matches its own join key (pandas matches NaN keys too). -/
theorem keyEq_self (r : Record) : keyEq r r = true := by
  simp [keyEq]

/-- In a snapshot with pairwise distinct join keys, the rows matching a
member's key are exactly that member. -/
theorem filter_keyEq_eq_singleton (r : Record) :
    ∀ (l : List Record), l.Pairwise (fun a b => keyEq a b = false) → r ∈ l →
      l.filter (fun s => keyEq r s) = [r]
  | [], _, hr => absurd hr (List.not_mem_nil r)
  | a :: t, hl, hr => by
    rw [List.pairwise_cons] at hl
    rcases List.mem_cons.mp hr with rfl | hrt
    · have ht : t.filter (fun s => keyEq r s) = [] :=
        List.filter_eq_nil_iff.mpr (fun b hb => by simp [hl.1 b hb])
      simp [List.filter_cons, keyEq_self, ht]
    · have ha : keyEq r a = false := by rw [keyEq_comm]; exact hl.1 r hrt
      simp [List.filter_cons, ha, filter_keyEq_eq_singleton r t hl.2 hrt]

/-- A flat map whose every fiber is a singleton is a map. -/
theorem flatMap_eq_map_of_singleton {α β : Type} (g : α → β) :
    ∀ (l : List α) (f : α → List β), (∀ r ∈ l, f r = [g r]) → l.flatMap f = l.map g
  | [], _, _ => rfl
  | a :: t, f, h => by
    rw [List.flatMap_cons, h a (List.mem_cons_self a t),
      flatMap_eq_map_of_singleton g t f (fun r hr => h r (List.mem_cons_of_mem a hr))]
    rfl

/-- Outer-merging a duplicate-key-free snapshot with itself pairs every row
with itself, leaving no one-sided rows. -/
theorem mergeOuter_self {l : List Record}
    (hl : l.Pairwise (fun a b => keyEq a b = false)) :
    mergeOuter l l = l.map (fun r => (some r, some r)) := by
  have hright : l.filter (fun s => !(l.any (fun r => keyEq r s))) = [] := by
    refine List.filter_eq_nil_iff.mpr (fun s hs => ?_)
    have hany : l.any (fun r => keyEq r s) = true :=
      List.any_eq_true.mpr ⟨s, hs, keyEq_self s⟩
    simp [hany]
  have hleft : l.flatMap (fun r =>
      let ms := l.filter (fun s => keyEq r s)
      if ms.isEmpty then [(some r, (none : Option Record))]
      else ms.map (fun s => (some r, some s))) = l.map (fun r => (some r, some r)) := by
    refine flatMap_eq_map_of_singleton _ l _ (fun r hr => ?_)
    have hf := filter_keyEq_eq_singleton r l hl hr
    simp [hf]
  simp only [mergeOuter, hleft, hright]
  simp

/-- C6 (amended): comparing a date with itself, on a snapshot whose
`(ticker, name)` keys are pairwise distinct, pairs every row with itself:
every output row has `weight_change = 0`; `ytm_change` is `0` where the
row's ytm is non-null and null where it is null; and the "new" and
"removed" counts both equal the number of snapshot rows with a null stored
weight — in particular zero when every weight is non-null. -/
theorem c6_compare_same_date_zero_changes (db : List Record) (etf_code d : String)
    (hkeys : (get_holdings_by_date etf_code d db).Pairwise (fun a b => keyEq a b = false)) :
    (∀ p ∈ compare_dates etf_code d d db, weight_change p.1 p.2 = 0) ∧
      (∀ p ∈ compare_dates etf_code d d db,
        ytm_change p.1 p.2 = (p.1.bind Record.ytm_pct).map (fun _ => (0 : ℚ))) ∧
      new_count (compare_dates etf_code d d db) =
        ((get_holdings_by_date etf_code d db).filter
          (fun r => r.weight_pct.isNone)).length ∧
      removed_count (compare_dates etf_code d d db) =
        ((get_holdings_by_date etf_code d db).filter
          (fun r => r.weight_pct.isNone)).length := by
  have hm := mergeOuter_self hkeys
  have hmem : ∀ p ∈ compare_dates etf_code d d db, ∃ r, p = (some r, some r) := by
    intro p hp
    simp only [compare_dates, List.mem_insertionSort, hm] at hp
    obtain ⟨r, -, rfl⟩ := List.mem_map.mp hp
    exact ⟨r, rfl⟩
  refine ⟨?_, ?_, ?_, ?_⟩
  · intro p hp
    obtain ⟨r, rfl⟩ := hmem p hp
    simp [weight_change, sideWeight]
  · intro p hp
    obtain ⟨r, rfl⟩ := hmem p hp
    rcases hy : r.ytm_pct with _ | y <;> simp [ytm_change, hy]
  · have h3 : new_count (compare_dates etf_code d d db)
        = (get_holdings_by_date etf_code d db).countP (fun r => r.weight_pct.isNone) := by
      simp only [new_count, new_rows, compare_dates, ← List.countP_eq_length_filter]
      rw [(List.perm_insertionSort absWeightDesc _).countP_eq, hm, List.countP_map]
      rfl
    rw [h3, List.countP_eq_length_filter]
  · have h4 : removed_count (compare_dates etf_code d d db)
        = (get_holdings_by_date etf_code d db).countP (fun r => r.weight_pct.isNone) := by
      simp only [removed_count, removed_rows, compare_dates, ← List.countP_eq_length_filter]
      rw [(List.perm_insertionSort absWeightDesc _).countP_eq, hm, List.countP_map]
      rfl
    rw [h4, List.countP_eq_length_filter]

/-- Witness for C6 at a concrete two-row snapshot with distinct keys. -/
theorem c6_compare_same_date_zero_changes_witness :
    (get_holdings_by_date "EMBI" "2025-01-01" [recK, recNull]).Pairwise
        (fun a b => keyEq a b = false) ∧
      ((∀ p ∈ compare_dates "EMBI" "2025-01-01" "2025-01-01" [recK, recNull],
          weight_change p.1 p.2 = 0) ∧
        (∀ p ∈ compare_dates "EMBI" "2025-01-01" "2025-01-01" [recK, recNull],
          ytm_change p.1 p.2 = (p.1.bind Record.ytm_pct).map (fun _ => (0 : ℚ))) ∧
        new_count (compare_dates "EMBI" "2025-01-01" "2025-01-01" [recK, recNull]) =
          ((get_holdings_by_date "EMBI" "2025-01-01" [recK, recNull]).filter
            (fun r => r.weight_pct.isNone)).length ∧
        removed_count (compare_dates "EMBI" "2025-01-01" "2025-01-01" [recK, recNull]) =
          ((get_holdings_by_date "EMBI" "2025-01-01" [recK, recNull]).filter
            (fun r => r.weight_pct.isNone)).length) :=
  ⟨by decide,
    c6_compare_same_date_zero_changes [recK, recNull] "EMBI" "2025-01-01" (by decide)⟩

/-- Counterexample for C6 as stated: on a same-date comparison of a
snapshot whose single row has a null ytm, the output row's `ytm_change` is
null (`NaN - NaN`), not `0`. -/
theorem c6_counterexample_null_ytm_change :
    compare_dates "EMBI" "2025-01-01" "2025-01-01" [recK] = [(some recK, some recK)] ∧
      ytm_change (some recK) (some recK) = none ∧
      ytm_change (some recK) (some recK) ≠ some 0 := by
  decide

/-- C7: in `compare_dates(etf, d1, d2)`, for every row present only in the
`d2` snapshot with weight `w`, the absent old weight is filled with `0`, so
its `weight_change` equals `w`, and the row is among those counted by the
"new" summary count; and `ytm_change` is null whenever either side's ytm is
null or absent. -/
theorem c7_new_holding_weight_change (db : List Record) (etf_code d1 d2 : String) :
    (∀ s ∈ get_holdings_by_date etf_code d2 db, ∀ w : ℚ,
      (∀ r ∈ get_holdings_by_date etf_code d1 db, keyEq r s = false) →
      s.weight_pct = some w →
      ((none, some s) ∈ new_rows (compare_dates etf_code d1 d2 db) ∧
        weight_change none (some s) = w)) ∧
    (∀ p ∈ compare_dates etf_code d1 d2 db,
      p.1.bind Record.ytm_pct = none ∨ p.2.bind Record.ytm_pct = none →
      ytm_change p.1 p.2 = none) := by
  constructor
  · intro s hs w hnew hw
    have hfilter : s ∈ (get_holdings_by_date etf_code d2 db).filter
        (fun s => !((get_holdings_by_date etf_code d1 db).any (fun r => keyEq r s))) := by
      refine List.mem_filter.mpr ⟨hs, ?_⟩
      have hany : (get_holdings_by_date etf_code d1 db).any (fun r => keyEq r s) = false := by
        rw [List.any_eq_false]
        intro r hr
        simp [hnew r hr]
      simp [hany]
    have hmo : ((none : Option Record), some s) ∈
        mergeOuter (get_holdings_by_date etf_code d1 db)
          (get_holdings_by_date etf_code d2 db) := by
      simp only [mergeOuter]
      exact List.mem_append_right _ (List.mem_map_of_mem _ hfilter)
    refine ⟨?_, ?_⟩
    · refine List.mem_filter.mpr ⟨?_, rfl⟩
      simp only [compare_dates, List.mem_insertionSort]
      exact hmo
    · simp [weight_change, sideWeight, hw]
  · intro p _ hor
    rcases hor with h | h
    · rcases h2 : p.2.bind Record.ytm_pct with _ | y <;> simp [ytm_change, h, h2]
    · rcases h1 : p.1.bind Record.ytm_pct with _ | y <;> simp [ytm_change, h, h1]

/-- Witness for C7 at a concrete holding present only at the later date
with weight 5. -/
theorem c7_new_holding_weight_change_witness :
    recD2 ∈ get_holdings_by_date "EMBI" "2025-01-02" [recD2] ∧
      (∀ r ∈ get_holdings_by_date "EMBI" "2025-01-01" [recD2], keyEq r recD2 = false) ∧
      recD2.weight_pct = some 5 ∧
      ((none, some recD2) ∈
          new_rows (compare_dates "EMBI" "2025-01-01" "2025-01-02" [recD2]) ∧
        weight_change none (some recD2) = 5) :=
  ⟨by decide, by decide, by decide,
    (c7_new_holding_weight_change [recD2] "EMBI" "2025-01-01" "2025-01-02").1 recD2
      (by decide) 5 (by decide) (by decide)⟩

/-- SQL `MAX` yields `NULL` exactly on an empty row set. -/
theorem dateMax_eq_none : ∀ {l : List String}, dateMax l = none ↔ l = []
  | [] => by simp [dateMax]
  | d :: ds => by
    rcases hd : dateMax ds with _ | m <;> simp [dateMax, hd]

/-- SQL `MAX` of a nonempty row set is attained by one of the rows. -/
theorem dateMax_mem : ∀ {l : List String} {m : String}, dateMax l = some m → m ∈ l
  | [], _, h => by simp [dateMax] at h
  | d :: ds, m, h => by
    rw [dateMax] at h
    rcases hd : dateMax ds with _ | m2 <;> rw [hd] at h
    · exact (Option.some.inj h) ▸ List.mem_cons_self d ds
    · obtain rfl := Option.some.inj h
      rcases max_cases d m2 with ⟨he, -⟩ | ⟨he, -⟩
      · rw [he]; exact List.mem_cons_self d ds
      · rw [he]; exact List.mem_cons_of_mem d (dateMax_mem hd)

/-- SQL `MAX` bounds every row of the set from above. -/
theorem le_dateMax_of_mem :
    ∀ {l : List String} {a m : String}, a ∈ l → dateMax l = some m → a ≤ m
  | [], a, _, ha, _ => absurd ha (List.not_mem_nil a)
  | d :: ds, a, m, ha, h => by
    rw [dateMax] at h
    rcases hd : dateMax ds with _ | m2 <;> rw [hd] at h <;> obtain rfl := Option.some.inj h
    · rcases List.mem_cons.mp ha with rfl | hds
      · exact le_refl a
      · rw [dateMax_eq_none.mp hd] at hds
        cases hds
    · rcases List.mem_cons.mp ha with rfl | hds
      · exact le_max_left a m2
      · exact le_trans (le_dateMax_of_mem hds hd) (le_max_right d m2)

/-- SQL `MAX` of a nonempty row set is a value, not `NULL`. -/
theorem dateMax_isSome_of_ne_nil {l : List String} (h : l ≠ []) :
    ∃ m, dateMax l = some m := by
  rcases hd : dateMax l with _ | m
  · exact absurd (dateMax_eq_none.mp hd) h
  · exact ⟨m, rfl⟩

/-- C9: for an ETF with at least one stored record, `get_latest_holdings`
returns exactly the records of that ETF whose `date_of_pull` is maximal
among the ETF's stored records (`isLatestFor`), as a permutation capturing
multiplicity, and the result is ordered by `weight_pct` descending. -/
theorem c9_latest_snapshot_max_date (etf_code : String) (db : List Record)
    (h : ∃ r ∈ db, r.etf_code = etf_code) :
    List.Perm (get_latest_holdings etf_code db) (db.filter (isLatestFor etf_code db)) ∧
      (get_latest_holdings etf_code db).Sorted weightDesc := by
  constructor
  · obtain ⟨r0, hr0, he0⟩ := h
    have hmemf : r0 ∈ db.filter (fun r => r.etf_code == etf_code) :=
      List.mem_filter.mpr ⟨hr0, by simp [he0]⟩
    have hne : (db.filter (fun r => r.etf_code == etf_code)).map Record.date_of_pull ≠ [] := by
      intro hnil
      exact absurd (hnil ▸ List.mem_map_of_mem Record.date_of_pull hmemf)
        (List.not_mem_nil _)
    obtain ⟨m, hm⟩ := dateMax_isSome_of_ne_nil hne
    have hfc : db.filter (fun r => r.etf_code == etf_code
          && decide (some r.date_of_pull = max_date etf_code db))
        = db.filter (isLatestFor etf_code db) := by
      refine List.filter_congr (fun r hr => ?_)
      rw [Bool.eq_iff_iff]
      simp only [Bool.and_eq_true, beq_iff_eq, decide_eq_true_eq, isLatestFor,
        List.all_eq_true, Bool.or_eq_true, Bool.not_eq_true', max_date, hm,
        Option.some.injEq]
      constructor
      · rintro ⟨hetf, hdate⟩
        refine ⟨hetf, fun s hs => ?_⟩
        by_cases hse : s.etf_code = etf_code
        · right
          rw [hdate]
          exact le_dateMax_of_mem
            (List.mem_map_of_mem Record.date_of_pull
              (List.mem_filter.mpr ⟨hs, by simp [hse]⟩)) hm
        · left
          simp [hse]
      · rintro ⟨hetf, hall⟩
        refine ⟨hetf, ?_⟩
        have h1 : r.date_of_pull ≤ m :=
          le_dateMax_of_mem
            (List.mem_map_of_mem Record.date_of_pull
              (List.mem_filter.mpr ⟨hr, by simp [hetf]⟩)) hm
        have h2 : m ≤ r.date_of_pull := by
          obtain ⟨s, hsf, hsd⟩ := List.mem_map.mp (dateMax_mem hm)
          have hsdb := List.mem_of_mem_filter hsf
          have hse : s.etf_code = etf_code := by
            simpa using (List.mem_filter.mp hsf).2
          rcases hall s hsdb with hfalse | hle
          · rw [hse] at hfalse
            simp at hfalse
          · rw [← hsd]
            exact hle
        exact le_antisymm h1 h2
    simp only [get_latest_holdings]
    rw [hfc]
    exact List.perm_insertionSort weightDesc _
  · simp only [get_latest_holdings]
    exact List.sorted_insertionSort weightDesc _

/-- Witness for C9 at a concrete two-date store. -/
theorem c9_latest_snapshot_max_date_witness :
    (∃ r ∈ [recK, recB], r.etf_code = "EMBI") ∧
      (List.Perm (get_latest_holdings "EMBI" [recK, recB])
          ([recK, recB].filter (isLatestFor "EMBI" [recK, recB])) ∧
        (get_latest_holdings "EMBI" [recK, recB]).Sorted weightDesc) :=
  ⟨by decide, c9_latest_snapshot_max_date "EMBI" [recK, recB] (by decide)⟩

end ETF

